import Mathlib

/-!
# Verification of the configuration resolver (`src/config.rs`)

This file gives a shallow embedding of the configuration-resolution core of
the repository (the `Config` assembler in `src/config.rs`) and proves the
specification's claims about it.

Modelling conventions:

* A fatal validation (`eprintln!` to stderr followed by `process::exit(1)`)
  is modelled as `Except.error e` for a `FatalError` value `e` carrying the
  data printed in the message.  `Except.ok` models "the function returns".
* Machine integers (`usize`, `u16`) are modelled as `Nat`, with the `u16`
  wrap-around of `Term::stdout().size().1 - 1` made explicit via `% 65536`.
* Collaborators that live outside `src/` (the style-string parser of
  `src/style.rs`, the theme helpers of `src/syntax_theme.rs`, the colour
  defaults of `src/color.rs`, the `regex` crate, the `State` enum of
  `src/delta.rs`) are modelled from the spec; each such definition carries a
  doc comment starting with `Modelled from the spec:`.
* Fields of `Config` whose types cannot be shallowly embedded are omitted:
  the floating-point distance thresholds (`max_line_distance`,
  `max_line_distance_for_naively_paired_lines`), and the `syntect` values
  (`syntax_set`, `syntax_theme`, `syntax_dummy_theme`, `null_syntect_style`).
  The compiled word-diff regex is kept abstract as a type parameter `R`
  together with a compilation function `String → Option R`.
-/

/-- Terminal colours.  The concrete colour representation of the `ansi_term`
crate is irrelevant to every claim; we model a colour as a `Nat` code. -/
abbrev Color := Nat

/-- Modelled from the spec: the resolved-style core of `ansi_term::Style`
(src/style.rs collaborator, not under src/).  Only the optional foreground
and background channels are observed by the claims. -/
structure AnsiTermStyle where
  foreground : Option Color
  background : Option Color
  is_bold : Bool
deriving DecidableEq

/-- Modelled from the spec: the result of permissively parsing a style
specification string (§3 StyleSpec): zero or one foreground colour, zero or
one background colour, and decoration attribute words.  The string-level
parser lives in `src/style.rs`, which is not under src/; we embed its output
directly. -/
structure StyleSpec where
  foreground : Option Color := none
  background : Option Color := none
  decorations : List String := []
deriving DecidableEq

/-- Modelled from the spec: the resolved `Style` entity of `src/style.rs`
(not under src/): optional foreground/background, emphasis flag, and an
optional decoration style (used by the three metadata styles). -/
structure Style where
  ansi_term_style : AnsiTermStyle
  is_emph : Bool
  decoration_style : Option AnsiTermStyle
deriving DecidableEq

/-- Modelled from the spec: `Style::new` — the null style, with no colours,
no emphasis and no decoration. -/
def Style.new : Style :=
  { ansi_term_style := { foreground := none, background := none, is_bold := false }
    is_emph := false
    decoration_style := none }

/-- Modelled from the spec: `Style::decoration_ansi_term_style` — the
decoration style carried by a resolved style, if any. -/
def Style.decoration_ansi_term_style (s : Style) : Option AnsiTermStyle :=
  s.decoration_style

/-- An explicitly named colour channel always wins over the caller-supplied
fallback (§4.3). -/
def orDefault (explicitColor fallback : Option Color) : Option Color :=
  match explicitColor with
  | some c => some c
  | none => fallback

/-- Modelled from the spec: `Style::from_str` (src/style.rs, not under
src/), §4.3: a foreground/background explicitly named in the spec always
wins; an omitted channel falls back to the caller-supplied default; the
optional decoration spec yields the decoration style.  Colour quantisation
to the `true_color` palette is delegated to a collaborator (§4.3) and not
re-modelled, so the `true_color` argument is carried but unobserved. -/
def Style.from_str (spec : StyleSpec) (foreground_default background_default : Option Color)
    (decoration_spec : Option StyleSpec) (true_color : Bool) (is_emph : Bool) : Style :=
  { ansi_term_style :=
      { foreground := orDefault spec.foreground foreground_default
        background := orDefault spec.background background_default
        is_bold := spec.decorations.contains "bold" }
    is_emph := is_emph
    decoration_style :=
      decoration_spec.map fun d =>
        { foreground := d.foreground, background := d.background, is_bold := false } }

/-- Modelled from the spec: the long-named metadata-style constructor of
`src/style.rs` (not under src/), §4.3: the three metadata styles accept a
separate decoration-only spec and a deprecated single-colour override, with
precedence explicit foreground in the main spec > deprecated override colour
> computed default. -/
def Style.from_str_with_handling_of_special_decoration_attributes_and_respecting_deprecated_foreground_color_arg
    (spec : StyleSpec) (foreground_default background_default : Option Color)
    (decoration_spec : Option StyleSpec) (deprecated_foreground : Option Color)
    (true_color : Bool) (is_emph : Bool) : Style :=
  Style.from_str spec (orDefault deprecated_foreground foreground_default)
    background_default decoration_spec true_color is_emph

/-- Display mode (§3): Light or Dark. -/
inductive DisplayMode where
  | Light
  | Dark
deriving DecidableEq

/-- The display mode denoted by the code's `is_light_mode : bool`. -/
def modeOfIsLight (is_light : Bool) : DisplayMode :=
  if is_light then DisplayMode.Light else DisplayMode.Dark

/-- Modelled from the spec: the theme catalogue (`assets.theme_set.themes`
of the asset-storage collaborator, §4.1): a map from theme name to its
light/dark classification. -/
abbrev ThemeCatalogue := List (String × DisplayMode)

/-- Lookup of a theme name's classification in the catalogue. -/
def catalogueLookup (cat : ThemeCatalogue) (t : String) : Option DisplayMode :=
  match cat with
  | [] => none
  | (name, cls) :: rest => if name = t then some cls else catalogueLookup rest t

/-- `assets.theme_set.themes.contains_key` — catalogue membership. -/
def containsKey (cat : ThemeCatalogue) (t : String) : Bool :=
  (catalogueLookup cat t).isSome

/-- Modelled from the spec: `syntax_theme::is_light_theme` (not under
src/) — whether the catalogue classifies the theme as Light. -/
def is_light_theme (cat : ThemeCatalogue) (t : String) : Bool :=
  decide (catalogueLookup cat t = some DisplayMode.Light)

/-- ASCII-lowercased code points of a string (an executable stand-in for
`str::to_lowercase` on theme names). -/
def lowerCodes (t : String) : List Nat :=
  t.data.map fun c => if 65 ≤ c.toNat ∧ c.toNat ≤ 90 then c.toNat + 32 else c.toNat

/-- Modelled from the spec: `syntax_theme::is_no_syntax_highlighting_theme_name`
(not under src/) — the "no syntax highlighting" sentinel theme name
("none", case-insensitively, per the in-src tests). -/
def is_no_syntax_highlighting_theme_name (t : String) : Bool :=
  lowerCodes t = lowerCodes "none"

/-- Modelled from the spec: the built-in default light theme name
(§4.1 step 3; `syntax_theme::DEFAULT_LIGHT_THEME`, not under src/). -/
def DEFAULT_LIGHT_THEME : String := "GitHub"

/-- Modelled from the spec: the built-in default dark theme name
(§4.1 step 3; `syntax_theme::DEFAULT_DARK_THEME`, not under src/). -/
def DEFAULT_DARK_THEME : String := "Monokai Extended"

/-- Modelled from the spec: `syntax_theme::get_is_light_mode_and_theme_name`
(not under src/), per §4.1 steps 2-3.  Given the explicit theme option, the
environment-provided theme name (`BAT_THEME`), the light flag, and the
catalogue, it returns `(is_light_mode, theme_name)`.  A sentinel or
catalogue-absent explicit name takes the mode from the light flag (Dark by
default); a catalogue entry takes its classification; with no explicit name
the non-empty environment name is used, else the built-in default for the
flag-chosen mode. -/
def get_is_light_mode_and_theme_name (theme : Option String) (env_theme : Option String)
    (light : Bool) (cat : ThemeCatalogue) : Bool × String :=
  match theme with
  | some t =>
      if is_no_syntax_highlighting_theme_name t then (light, t)
      else
        match catalogueLookup cat t with
        | some cls => (decide (cls = DisplayMode.Light), t)
        | none => (light, t)
  | none =>
      match env_theme with
      | some e =>
          if e = "" then
            (light, if light then DEFAULT_LIGHT_THEME else DEFAULT_DARK_THEME)
          else (light, e)
      | none => (light, if light then DEFAULT_LIGHT_THEME else DEFAULT_DARK_THEME)

/-- Modelled from the spec: the colour defaults of `src/color.rs` (not under
src/) — `get_minus_background_color_default`.  The concrete colour values
are irrelevant to every claim; only the dependence on mode and true-colour
matters. -/
def get_minus_background_color_default (is_light_mode true_color : Bool) : Color :=
  if is_light_mode then (if true_color then 0xffe0e0 else 224)
  else if true_color then 0x3f0001 else 52

/-- Modelled from the spec: `color::get_minus_emph_background_color_default`
(not under src/). -/
def get_minus_emph_background_color_default (is_light_mode true_color : Bool) : Color :=
  if is_light_mode then (if true_color then 0xffc0c0 else 217)
  else if true_color then 0x901011 else 124

/-- Modelled from the spec: `color::get_plus_background_color_default`
(not under src/). -/
def get_plus_background_color_default (is_light_mode true_color : Bool) : Color :=
  if is_light_mode then (if true_color then 0xd0ffd0 else 194)
  else if true_color then 0x004000 else 22

/-- Modelled from the spec: `color::get_plus_emph_background_color_default`
(not under src/). -/
def get_plus_emph_background_color_default (is_light_mode true_color : Bool) : Color :=
  if is_light_mode then (if true_color then 0xa0efa0 else 157)
  else if true_color then 0x006000 else 28

/-- Width of the decoration area (`pub enum Width` in src/config.rs). -/
inductive Width where
  | Fixed (n : Nat)
  | Variable
deriving DecidableEq

/-- Paging mode (`bat::output::PagingMode`, matched in src/config.rs). -/
inductive PagingMode where
  | Always
  | Never
  | QuitIfOneScreen
deriving DecidableEq

/-- Modelled from the spec: the element-kind tags (`delta::State`, not under
src/).  `src/config.rs` matches the three tags `CommitMeta`, `FileMeta`,
`HunkHeader` and treats every other tag as unreachable; the remaining
constructors stand for the other states of the diff state machine. -/
inductive State where
  | CommitMeta
  | FileMeta
  | HunkHeader
  | HunkZero
  | HunkMinus
  | HunkPlus
  | Unknown
deriving DecidableEq

/-- The fatal validation outcomes of the resolver (§7).  Each constructor
models an `eprintln!` to stderr (carrying the data of the message) followed
by `process::exit(1)`, i.e. a non-zero exit after a message on the error
stream. -/
inductive FatalError where
  | conflictingModeFlags
  | themeModeMismatch (theme : String)
  | invalidEnumValue (option_name value : String)
  | invalidWidth (value : String)
  | invalidPattern (pat : String)
  | unreachableState (message : String)
deriving DecidableEq

/-- The already-parsed command-line options consumed by the resolver
(`cli::Opt`, restricted to the fields `src/config.rs` reads; style-spec
strings appear as their parsed `StyleSpec`, see `StyleSpec`). -/
structure Opt where
  light : Bool
  dark : Bool
  syntax_theme : Option String
  paging_mode : String
  true_color : String
  width : Option String
  minus_style : StyleSpec
  minus_emph_style : StyleSpec
  minus_non_emph_style : StyleSpec
  zero_style : StyleSpec
  plus_style : StyleSpec
  plus_emph_style : StyleSpec
  plus_non_emph_style : StyleSpec
  number_minus_format_style : StyleSpec
  number_minus_style : StyleSpec
  number_plus_format_style : StyleSpec
  number_plus_style : StyleSpec
  number_minus_format : String
  number_plus_format : String
  commit_style : StyleSpec
  commit_decoration_style : StyleSpec
  deprecated_commit_color : Option Color
  file_style : StyleSpec
  file_decoration_style : StyleSpec
  deprecated_file_color : Option Color
  hunk_header_style : StyleSpec
  hunk_header_decoration_style : StyleSpec
  deprecated_hunk_color : Option Color
  keep_plus_minus_markers : Bool
  tokenization_regex : String
  file_added_label : String
  file_modified_label : String
  file_removed_label : String
  file_renamed_label : String
  navigate : Bool
  list_languages : Bool
  list_syntax_theme_names : Bool
  list_syntax_themes : Bool
  show_background_colors : Bool
  show_line_numbers : Bool
  tab_width : Nat
  minus_file : Option String
  plus_file : Option String
deriving DecidableEq

/-- The resolved configuration (`pub struct Config` in src/config.rs),
with the unembeddable fields omitted as described in the header.  `R` is
the type of compiled word-diff regexes. -/
structure Config (R : Type) where
  background_color_extends_to_terminal_width : Bool
  commit_style : Style
  decorations_width : Width
  file_added_label : String
  file_modified_label : String
  file_removed_label : String
  file_renamed_label : String
  file_style : Style
  hunk_header_style : Style
  list_languages : Bool
  list_syntax_theme_names : Bool
  list_syntax_themes : Bool
  max_buffered_lines : Nat
  minus_emph_style : Style
  minus_file : Option String
  minus_line_marker : String
  minus_non_emph_style : Style
  minus_style : Style
  navigate : Bool
  null_style : Style
  number_minus_format : String
  number_minus_format_style : Style
  number_minus_style : Style
  number_plus_format : String
  number_plus_format_style : Style
  number_plus_style : Style
  paging_mode : PagingMode
  plus_emph_style : Style
  plus_file : Option String
  plus_line_marker : String
  plus_non_emph_style : Style
  plus_style : Style
  show_background_colors : Bool
  show_line_numbers : Bool
  syntax_theme_name : String
  tab_width : Nat
  true_color : Bool
  tokenization_regex : R
  zero_style : Style
deriving DecidableEq

/-- `_check_validity` (src/config.rs lines 102-130): rejects conflicting
mode flags, then, for an explicit non-sentinel theme name present in the
catalogue, rejects a light/dark classification that contradicts the
supplied mode flag.  `Except.error` models eprintln-and-exit(1). -/
def _check_validity (opt : Opt) (cat : ThemeCatalogue) : Except FatalError Unit :=
  if opt.light && opt.dark then
    Except.error FatalError.conflictingModeFlags
  else
    match opt.syntax_theme with
    | some t =>
        if !is_no_syntax_highlighting_theme_name t then
          if !containsKey cat t then Except.ok ()
          else
            let is_light_syntax_theme := is_light_theme cat t
            if is_light_syntax_theme && opt.dark then
              Except.error (FatalError.themeModeMismatch t)
            else if !is_light_syntax_theme && opt.light then
              Except.error (FatalError.themeModeMismatch t)
            else Except.ok ()
        else Except.ok ()
    | none => Except.ok ()

/-- `is_truecolor_terminal` (src/config.rs lines 146-150): the `COLORTERM`
environment value equals "truecolor" or "24bit"; an absent variable means
false.  The environment is passed as a function from variable name to
optional value. -/
def is_truecolor_terminal (env : String → Option String) : Bool :=
  match env "COLORTERM" with
  | some colorterm => colorterm = "truecolor" || colorterm = "24bit"
  | none => false

/-- The paging-mode match of `From<cli::Opt> for Config`
(src/config.rs lines 158-169). -/
def resolvePagingMode (s : String) : Except FatalError PagingMode :=
  if s = "always" then Except.ok PagingMode.Always
  else if s = "never" then Except.ok PagingMode.Never
  else if s = "auto" then Except.ok PagingMode.QuitIfOneScreen
  else Except.error (FatalError.invalidEnumValue "--paging" s)

/-- The true-colour match of `From<cli::Opt> for Config`
(src/config.rs lines 171-182). -/
def resolveTrueColor (s : String) (env : String → Option String) : Except FatalError Bool :=
  if s = "always" then Except.ok true
  else if s = "never" then Except.ok false
  else if s = "auto" then Except.ok (is_truecolor_terminal env)
  else Except.error (FatalError.invalidEnumValue "--24-bit-color" s)

/-- `(Term::stdout().size().1 - 1) as usize` (src/config.rs line 185): the
terminal column count is a `u16`, and the subtraction wraps modulo 2^16
(so 0 columns would wrap to 65535; real column counts are ≥ 1). -/
def availableTerminalWidth (cols : Nat) : Nat :=
  (cols + 65535) % 65536

/-- Horner accumulation of decimal digits. -/
def digitsToNat (cs : List Char) : Nat :=
  cs.foldl (fun acc c => acc * 10 + (c.toNat - 48)) 0

/-- Rust's `str::parse::<usize>`: an optional leading '+', then one or more
ASCII digits, value below 2^64 (overflow is a parse error). -/
def parseUsize (s : String) : Option Nat :=
  let cs :=
    match s.data with
    | '+' :: rest => rest
    | other => other
  if cs.isEmpty then none
  else if cs.all Char.isDigit then
    let n := digitsToNat cs
    if n < 2 ^ 64 then some n else none
  else none

/-- The width/layout match of `From<cli::Opt> for Config`
(src/config.rs lines 186-197): returns the decorations width and whether
the background colour extends to the terminal width. -/
def resolveWidth (width : Option String) (available_terminal_width : Nat) :
    Except FatalError (Width × Bool) :=
  match width with
  | some s =>
      if s = "variable" then Except.ok (Width.Variable, false)
      else
        match parseUsize s with
        | some w => Except.ok (Width.Fixed (min w available_terminal_width), true)
        | none => Except.error (FatalError.invalidWidth s)
  | none => Except.ok (Width.Fixed available_terminal_width, true)

/-- The tokenization-pattern compilation of `From<cli::Opt> for Config`
(src/config.rs lines 255-263): `Regex::new` is the external regex
compiler, abstracted as `compile`; a failed compilation is fatal and the
message reports the offending string. -/
def resolveTokenizationRegex {R : Type} (compile : String → Option R) (pat : String) :
    Except FatalError R :=
  match compile pat with
  | some r => Except.ok r
  | none => Except.error (FatalError.invalidPattern pat)

/-- `make_hunk_styles` (src/config.rs lines 315-397): the 7-tuple
(minus, minus_emph, minus_non_emph, zero, plus, plus_emph, plus_non_emph).
The non-emphasized styles take the already-resolved base style's
foreground/background as their defaults. -/
def make_hunk_styles (opt : Opt) (is_light_mode true_color : Bool) :
    Style × Style × Style × Style × Style × Style × Style :=
  let minus_style := Style.from_str opt.minus_style none
    (some (get_minus_background_color_default is_light_mode true_color)) none true_color false
  let minus_emph_style := Style.from_str opt.minus_emph_style none
    (some (get_minus_emph_background_color_default is_light_mode true_color)) none true_color true
  let minus_non_emph_style := Style.from_str opt.minus_non_emph_style
    minus_style.ansi_term_style.foreground minus_style.ansi_term_style.background
    none true_color false
  let zero_style := Style.from_str opt.zero_style none none none true_color false
  let plus_style := Style.from_str opt.plus_style none
    (some (get_plus_background_color_default is_light_mode true_color)) none true_color false
  let plus_emph_style := Style.from_str opt.plus_emph_style none
    (some (get_plus_emph_background_color_default is_light_mode true_color)) none true_color true
  let plus_non_emph_style := Style.from_str opt.plus_non_emph_style
    plus_style.ansi_term_style.foreground plus_style.ansi_term_style.background
    none true_color false
  (minus_style, minus_emph_style, minus_non_emph_style, zero_style,
   plus_style, plus_emph_style, plus_non_emph_style)

/-- `make_line_number_styles` (src/config.rs lines 399-451): the 4-tuple
(number_minus_format, number_minus, number_plus_format, number_plus); the
defaults for every channel come from the supplied decoration style (the
hunk-header style's, at the call site), or are absent when it is `None`. -/
def make_line_number_styles (opt : Opt) (default_style : Option AnsiTermStyle)
    (true_color : Bool) : Style × Style × Style × Style :=
  let p :=
    match default_style with
    | some ds => (ds.foreground, ds.background)
    | none => (none, none)
  let default_foreground := p.1
  let default_background := p.2
  let number_minus_format_style := Style.from_str opt.number_minus_format_style
    default_foreground default_background none true_color false
  let number_minus_style := Style.from_str opt.number_minus_style
    default_foreground default_background none true_color false
  let number_plus_format_style := Style.from_str opt.number_plus_format_style
    default_foreground default_background none true_color false
  let number_plus_style := Style.from_str opt.number_plus_style
    default_foreground default_background none true_color false
  (number_minus_format_style, number_minus_style, number_plus_format_style, number_plus_style)

/-- `make_commit_file_hunk_header_styles` (src/config.rs lines 453-483). -/
def make_commit_file_hunk_header_styles (opt : Opt) (true_color : Bool) :
    Style × Style × Style :=
  (Style.from_str_with_handling_of_special_decoration_attributes_and_respecting_deprecated_foreground_color_arg
     opt.commit_style none none (some opt.commit_decoration_style)
     opt.deprecated_commit_color true_color false,
   Style.from_str_with_handling_of_special_decoration_attributes_and_respecting_deprecated_foreground_color_arg
     opt.file_style none none (some opt.file_decoration_style)
     opt.deprecated_file_color true_color false,
   Style.from_str_with_handling_of_special_decoration_attributes_and_respecting_deprecated_foreground_color_arg
     opt.hunk_header_style none none (some opt.hunk_header_decoration_style)
     opt.deprecated_hunk_color true_color false)

/-- The Mode & Theme Resolver (§4.1): `_check_validity` followed by
`get_is_light_mode_and_theme_name`, exactly as they are sequenced inside
`From<cli::Opt> for Config` (src/config.rs lines 156, 199-205).  Returns
`(is_light_mode, syntax_theme_name)`. -/
def resolveModeAndTheme (opt : Opt) (env_theme : Option String) (cat : ThemeCatalogue) :
    Except FatalError (Bool × String) :=
  match _check_validity opt cat with
  | Except.error e => Except.error e
  | Except.ok _ =>
      Except.ok (get_is_light_mode_and_theme_name opt.syntax_theme env_theme opt.light cat)

/-- `From<cli::Opt> for Config` (src/config.rs lines 152-313), with the
stages in source order: `_check_validity`, paging mode, true colour,
width/layout, mode & theme name, hunk styles, metadata styles, line-number
styles, markers, tokenization regex, assembly.  `compile` abstracts
`Regex::new`, `env` the process environment, `cat` the theme catalogue and
`cols` the terminal column count. -/
def configFrom {R : Type} (compile : String → Option R) (env : String → Option String)
    (cat : ThemeCatalogue) (cols : Nat) (opt : Opt) : Except FatalError (Config R) :=
  match _check_validity opt cat with
  | Except.error e => Except.error e
  | Except.ok _ =>
    match resolvePagingMode opt.paging_mode with
    | Except.error e => Except.error e
    | Except.ok paging_mode =>
      match resolveTrueColor opt.true_color env with
      | Except.error e => Except.error e
      | Except.ok true_color =>
        match resolveWidth opt.width (availableTerminalWidth cols) with
        | Except.error e => Except.error e
        | Except.ok (decorations_width, background_color_extends_to_terminal_width) =>
          let mt := get_is_light_mode_and_theme_name opt.syntax_theme (env "BAT_THEME")
            opt.light cat
          let is_light_mode := mt.1
          let syntax_theme_name := mt.2
          let hs := make_hunk_styles opt is_light_mode true_color
          let minus_style := hs.1
          let minus_emph_style := hs.2.1
          let minus_non_emph_style := hs.2.2.1
          let zero_style := hs.2.2.2.1
          let plus_style := hs.2.2.2.2.1
          let plus_emph_style := hs.2.2.2.2.2.1
          let plus_non_emph_style := hs.2.2.2.2.2.2
          let cfh := make_commit_file_hunk_header_styles opt true_color
          let commit_style := cfh.1
          let file_style := cfh.2.1
          let hunk_header_style := cfh.2.2
          let lns := make_line_number_styles opt
            hunk_header_style.decoration_ansi_term_style true_color
          let number_minus_format_style := lns.1
          let number_minus_style := lns.2.1
          let number_plus_format_style := lns.2.2.1
          let number_plus_style := lns.2.2.2
          let minus_line_marker := if opt.keep_plus_minus_markers then "-" else " "
          let plus_line_marker := if opt.keep_plus_minus_markers then "+" else " "
          match compile opt.tokenization_regex with
          | none => Except.error (FatalError.invalidPattern opt.tokenization_regex)
          | some tokenization_regex =>
            Except.ok
              { background_color_extends_to_terminal_width
                commit_style
                decorations_width
                file_added_label := opt.file_added_label
                file_modified_label := opt.file_modified_label
                file_removed_label := opt.file_removed_label
                file_renamed_label := opt.file_renamed_label
                file_style
                hunk_header_style
                list_languages := opt.list_languages
                list_syntax_theme_names := opt.list_syntax_theme_names
                list_syntax_themes := opt.list_syntax_themes
                max_buffered_lines := 32
                minus_emph_style
                minus_file := opt.minus_file
                minus_line_marker
                minus_non_emph_style
                minus_style
                navigate := opt.navigate
                null_style := Style.new
                number_minus_format := opt.number_minus_format
                number_minus_format_style
                number_minus_style
                number_plus_format := opt.number_plus_format
                number_plus_format_style
                number_plus_style
                paging_mode
                plus_emph_style
                plus_file := opt.plus_file
                plus_line_marker
                plus_non_emph_style
                plus_style
                show_background_colors := opt.show_background_colors
                show_line_numbers := opt.show_line_numbers
                syntax_theme_name
                tab_width := opt.tab_width
                true_color
                tokenization_regex
                zero_style }

/-- `Config::get_style` (src/config.rs lines 92-99): the lookup from
element-kind tags to styles.  The wildcard arm models
`unreachable("Unreachable code reached in get_style.")`
(src/config.rs lines 137-144), which prints a bug-report message and
terminates via `process::exit(1)` — not a panic. -/
def Config.get_style {R : Type} (config : Config R) (state : State) : Except FatalError Style :=
  match state with
  | State.CommitMeta => Except.ok config.commit_style
  | State.FileMeta => Except.ok config.file_style
  | State.HunkHeader => Except.ok config.hunk_header_style
  | _ => Except.error (FatalError.unreachableState "Unreachable code reached in get_style.")

/-- `make_navigate_regexp` (src/config.rs lines 485-493). -/
def make_navigate_regexp {R : Type} (config : Config R) : String :=
  "^(commit|" ++ config.file_modified_label ++ "|" ++ config.file_added_label ++ "|"
    ++ config.file_removed_label ++ "|" ++ config.file_renamed_label ++ ")"

/-- The empty style spec: no colours, no decorations. -/
def emptySpec : StyleSpec :=
  { foreground := none, background := none, decorations := [] }

/-- A baseline option set mirroring the tool's defaults, used as the
starting point for the concrete inputs of witnesses and counterexamples. -/
def defaultOpt : Opt :=
  { light := false
    dark := false
    syntax_theme := none
    paging_mode := "auto"
    true_color := "auto"
    width := none
    minus_style := emptySpec
    minus_emph_style := emptySpec
    minus_non_emph_style := emptySpec
    zero_style := emptySpec
    plus_style := emptySpec
    plus_emph_style := emptySpec
    plus_non_emph_style := emptySpec
    number_minus_format_style := emptySpec
    number_minus_style := emptySpec
    number_plus_format_style := emptySpec
    number_plus_style := emptySpec
    number_minus_format := ""
    number_plus_format := ""
    commit_style := emptySpec
    commit_decoration_style := emptySpec
    deprecated_commit_color := none
    file_style := emptySpec
    file_decoration_style := emptySpec
    deprecated_file_color := none
    hunk_header_style := emptySpec
    hunk_header_decoration_style := emptySpec
    deprecated_hunk_color := none
    keep_plus_minus_markers := false
    tokenization_regex := "\\w+"
    file_added_label := "added:"
    file_modified_label := "modified:"
    file_removed_label := "removed:"
    file_renamed_label := "renamed:"
    navigate := false
    list_languages := false
    list_syntax_theme_names := false
    list_syntax_themes := false
    show_background_colors := false
    show_line_numbers := false
    tab_width := 4
    minus_file := none
    plus_file := none }

/-- A colour-free resolved style, for concrete instantiations. -/
def sampleStyle : Style :=
  { ansi_term_style := { foreground := none, background := none, is_bold := false }
    is_emph := false
    decoration_style := none }

/-- A resolved style carrying a decoration style, for concrete
instantiations of the line-number fallback. -/
def decoratedStyle : Style :=
  { ansi_term_style := { foreground := none, background := none, is_bold := false }
    is_emph := false
    decoration_style := some { foreground := some 3, background := some 4, is_bold := false } }

/-- A concrete resolved configuration, for concrete instantiations of the
element-kind lookup. -/
def sampleConfig : Config Nat :=
  { background_color_extends_to_terminal_width := true
    commit_style := sampleStyle
    decorations_width := Width.Fixed 79
    file_added_label := "added:"
    file_modified_label := "modified:"
    file_removed_label := "removed:"
    file_renamed_label := "renamed:"
    file_style := sampleStyle
    hunk_header_style := decoratedStyle
    list_languages := false
    list_syntax_theme_names := false
    list_syntax_themes := false
    max_buffered_lines := 32
    minus_emph_style := sampleStyle
    minus_file := none
    minus_line_marker := " "
    minus_non_emph_style := sampleStyle
    minus_style := sampleStyle
    navigate := false
    null_style := Style.new
    number_minus_format := ""
    number_minus_format_style := sampleStyle
    number_minus_style := sampleStyle
    number_plus_format := ""
    number_plus_format_style := sampleStyle
    number_plus_style := sampleStyle
    paging_mode := PagingMode.QuitIfOneScreen
    plus_emph_style := sampleStyle
    plus_file := none
    plus_line_marker := " "
    plus_non_emph_style := sampleStyle
    plus_style := sampleStyle
    show_background_colors := false
    show_line_numbers := false
    syntax_theme_name := DEFAULT_DARK_THEME
    tab_width := 4
    true_color := false
    tokenization_regex := 0
    zero_style := sampleStyle }

/-- The options of the C6 counterexample: an explicit `--width 0`. -/
def zeroWidthOpt : Opt := { defaultOpt with width := some "0" }

/-- The options of the C2 counterexample: both mode flags together with a
Light-classified catalogue theme. -/
def bothFlagsLightThemeOpt : Opt :=
  { defaultOpt with light := true, dark := true, syntax_theme := some "GitHub" }

/-- The options of the C3 counterexample: both mode flags together with a
theme name absent from the catalogue. -/
def bothFlagsUnknownThemeOpt : Opt :=
  { defaultOpt with light := true, dark := true, syntax_theme := some "mystery" }

theorem resolveWidth_fixed_le (w : Option String) (avail n : Nat) (fill : Bool)
    (h : resolveWidth w avail = Except.ok (Width.Fixed n, fill)) : n ≤ avail := by
  unfold resolveWidth at h
  match w with
  | none =>
      simp only [Except.ok.injEq, Prod.mk.injEq, Width.Fixed.injEq] at h
      omega
  | some s =>
      simp only at h
      by_cases hv : s = "variable"
      · simp [hv] at h
      · simp only [hv, if_false] at h
        match hp : parseUsize s with
        | none => rw [hp] at h; exact Except.noConfusion h
        | some m =>
            rw [hp] at h
            simp only [Except.ok.injEq, Prod.mk.injEq, Width.Fixed.injEq] at h
            obtain ⟨hn, -⟩ := h
            omega

theorem availableTerminalWidth_eq (cols : Nat) (h1 : 1 ≤ cols) (h2 : cols < 65536) :
    availableTerminalWidth cols = cols - 1 := by
  unfold availableTerminalWidth
  have hcol : cols + 65535 = (cols - 1) + 1 * 65536 := by omega
  rw [hcol, Nat.add_mul_mod_self_right]
  exact Nat.mod_eq_of_lt (by omega)

theorem configFrom_ok_inv {R : Type} {compile : String → Option R}
    {env : String → Option String} {cat : ThemeCatalogue} {cols : Nat} {opt : Opt}
    {cfg : Config R} (h : configFrom compile env cat cols opt = Except.ok cfg) :
    ∃ pm tc dw bg r,
      resolvePagingMode opt.paging_mode = Except.ok pm ∧
      resolveTrueColor opt.true_color env = Except.ok tc ∧
      resolveWidth opt.width (availableTerminalWidth cols) = Except.ok (dw, bg) ∧
      compile opt.tokenization_regex = some r ∧
      cfg.decorations_width = dw ∧ cfg.tokenization_regex = r := by
  unfold configFrom at h
  cases hcv : _check_validity opt cat with
  | error e => rw [hcv] at h; exact Except.noConfusion h
  | ok u =>
    simp only [hcv] at h
    cases hpm : resolvePagingMode opt.paging_mode with
    | error e => rw [hpm] at h; exact Except.noConfusion h
    | ok pm =>
      simp only [hpm] at h
      cases htc : resolveTrueColor opt.true_color env with
      | error e => rw [htc] at h; exact Except.noConfusion h
      | ok tc =>
        simp only [htc] at h
        cases hw : resolveWidth opt.width (availableTerminalWidth cols) with
        | error e => rw [hw] at h; exact Except.noConfusion h
        | ok p =>
          obtain ⟨dw, bg⟩ := p
          simp only [hw] at h
          cases hr : compile opt.tokenization_regex with
          | none => rw [hr] at h; exact Except.noConfusion h
          | some r =>
            simp only [hr] at h
            have hrec := Except.ok.inj h
            refine ⟨pm, tc, dw, bg, r, rfl, rfl, rfl, rfl, ?_, ?_⟩
            · rw [← hrec]
            · rw [← hrec]

/-- Claim C1: for every input in which both the light flag and the dark
flag are set, resolution fails fatally with `ConflictingModeFlags`
(a message on the error stream followed by a non-zero exit, modelled as
`Except.error`), regardless of every other flag, environment variable,
theme catalogue, terminal width or theme name, and no `Config` is
produced. -/
theorem conflicting_mode_flags_fatal {R : Type} (compile : String → Option R)
    (env : String → Option String) (cat : ThemeCatalogue) (cols : Nat) (opt : Opt)
    (hl : opt.light = true) (hd : opt.dark = true) :
    configFrom compile env cat cols opt = Except.error FatalError.conflictingModeFlags
    ∧ ∀ cfg : Config R, configFrom compile env cat cols opt ≠ Except.ok cfg := by
  have hcv : _check_validity opt cat = Except.error FatalError.conflictingModeFlags := by
    unfold _check_validity
    rw [hl, hd]
    simp
  constructor
  · unfold configFrom
    rw [hcv]
  · intro cfg hc
    unfold configFrom at hc
    rw [hcv] at hc
    exact Except.noConfusion hc

theorem conflicting_mode_flags_fatal_witness :
    configFrom (fun s => some s) (fun _ => none) [] 80
        { defaultOpt with light := true, dark := true }
      = Except.error FatalError.conflictingModeFlags :=
  (conflicting_mode_flags_fatal (fun s => some s) (fun _ => none) [] 80
    { defaultOpt with light := true, dark := true } rfl rfl).1

/-- Claim C5: for every terminal column count c (a `u16`, so 1 ≤ c < 2^16):
the width option "variable" yields `Width.Variable` with full-width
background fill disabled; a numeric option parsing to n yields
`Width.Fixed (min n (c - 1))` with fill enabled; a non-parsing option
(other than "variable") fails fatally with `InvalidWidth`; an absent
option yields `Width.Fixed (c - 1)` with fill enabled. -/
theorem width_layout_resolution (cols : Nat) (h1 : 1 ≤ cols) (h2 : cols < 65536) :
    (resolveWidth (some "variable") (availableTerminalWidth cols)
       = Except.ok (Width.Variable, false))
    ∧ (∀ s n, parseUsize s = some n →
        resolveWidth (some s) (availableTerminalWidth cols)
          = Except.ok (Width.Fixed (min n (cols - 1)), true))
    ∧ (∀ s, s ≠ "variable" → parseUsize s = none →
        resolveWidth (some s) (availableTerminalWidth cols)
          = Except.error (FatalError.invalidWidth s))
    ∧ (resolveWidth none (availableTerminalWidth cols)
        = Except.ok (Width.Fixed (cols - 1), true)) := by
  have havail : availableTerminalWidth cols = cols - 1 :=
    availableTerminalWidth_eq cols h1 h2
  refine ⟨?_, ?_, ?_, ?_⟩
  · simp [resolveWidth]
  · intro s n hp
    have hsv : s ≠ "variable" := by
      intro he
      rw [he] at hp
      have : parseUsize "variable" = none := by decide
      rw [this] at hp
      exact Option.noConfusion hp
    simp [resolveWidth, hsv, hp, havail]
  · intro s hsv hp
    simp [resolveWidth, hsv, hp]
  · simp [resolveWidth, havail]

theorem width_layout_resolution_witness :
    resolveWidth (some "500") (availableTerminalWidth 80)
      = Except.ok (Width.Fixed (min 500 79), true) :=
  (width_layout_resolution 80 (by decide) (by decide)).2.1 "500" 500 (by decide)

/-- Claim C7: the true-colour resolver maps "always" to true, "never" to
false, and "auto" to the environment probe, where the probe is true exactly
when `COLORTERM` is "truecolor" or "24bit" (absent means false); any other
input string is fatal with `InvalidEnumValue`. -/
theorem true_color_resolution (s : String) (env : String → Option String) :
    (resolveTrueColor "always" env = Except.ok true)
    ∧ (resolveTrueColor "never" env = Except.ok false)
    ∧ (resolveTrueColor "auto" env = Except.ok (is_truecolor_terminal env))
    ∧ (is_truecolor_terminal env = true ↔
        env "COLORTERM" = some "truecolor" ∨ env "COLORTERM" = some "24bit")
    ∧ (s ≠ "always" → s ≠ "never" → s ≠ "auto" →
        resolveTrueColor s env
          = Except.error (FatalError.invalidEnumValue "--24-bit-color" s)) := by
  refine ⟨by simp [resolveTrueColor], by simp [resolveTrueColor], by simp [resolveTrueColor],
    ?_, ?_⟩
  · unfold is_truecolor_terminal
    cases henv : env "COLORTERM" with
    | none => simp
    | some v => simp
  · intro ha hn hu
    simp [resolveTrueColor, ha, hn, hu]

theorem true_color_resolution_witness :
    resolveTrueColor "sometimes" (fun _ => none)
      = Except.error (FatalError.invalidEnumValue "--24-bit-color" "sometimes") :=
  (true_color_resolution "sometimes" (fun _ => none)).2.2.2.2
    (by decide) (by decide) (by decide)

/-- Claim C9: the element-kind lookup `Config::get_style` is total on the
closed tag set: `CommitMeta`, `FileMeta` and `HunkHeader` return the
commit, file and hunk-header styles; every other tag reaches the
`unreachable` handler, which prints a bug-report message and terminates
with a non-zero status (modelled as `Except.error (unreachableState ...)`)
rather than panicking. -/
theorem get_style_closed_tag_lookup {R : Type} (config : Config R) :
    (config.get_style State.CommitMeta = Except.ok config.commit_style)
    ∧ (config.get_style State.FileMeta = Except.ok config.file_style)
    ∧ (config.get_style State.HunkHeader = Except.ok config.hunk_header_style)
    ∧ (∀ s : State, s ≠ State.CommitMeta → s ≠ State.FileMeta → s ≠ State.HunkHeader →
        config.get_style s
          = Except.error
              (FatalError.unreachableState "Unreachable code reached in get_style.")) := by
  refine ⟨rfl, rfl, rfl, ?_⟩
  intro s h1 h2 h3
  cases s
  · exact absurd rfl h1
  · exact absurd rfl h2
  · exact absurd rfl h3
  · rfl
  · rfl
  · rfl
  · rfl

theorem get_style_closed_tag_lookup_witness :
    sampleConfig.get_style State.HunkMinus
      = Except.error
          (FatalError.unreachableState "Unreachable code reached in get_style.") :=
  (get_style_closed_tag_lookup sampleConfig).2.2.2 State.HunkMinus
    (by decide) (by decide) (by decide)

/-- Claim C4: in `make_hunk_styles`, each non-emphasized hunk style
(`minus_non_emph`, tuple position .2.2.1, and `plus_non_emph`, tuple
position .2.2.2.2.2.2) whose own spec names no foreground (resp.
background) resolves that channel to the already-resolved corresponding
base style's (`minus`, position .1; `plus`, position .2.2.2.2.1)
foreground (resp. background); an explicit colour in the non-emphasized
spec always wins over that fallback. -/
theorem non_emph_fallback (opt : Opt) (is_light_mode true_color : Bool) :
    (opt.minus_non_emph_style.foreground = none →
      ((make_hunk_styles opt is_light_mode true_color).2.2.1).ansi_term_style.foreground
        = ((make_hunk_styles opt is_light_mode true_color).1).ansi_term_style.foreground)
    ∧ (opt.minus_non_emph_style.background = none →
      ((make_hunk_styles opt is_light_mode true_color).2.2.1).ansi_term_style.background
        = ((make_hunk_styles opt is_light_mode true_color).1).ansi_term_style.background)
    ∧ (∀ c, opt.minus_non_emph_style.foreground = some c →
      ((make_hunk_styles opt is_light_mode true_color).2.2.1).ansi_term_style.foreground
        = some c)
    ∧ (∀ c, opt.minus_non_emph_style.background = some c →
      ((make_hunk_styles opt is_light_mode true_color).2.2.1).ansi_term_style.background
        = some c)
    ∧ (opt.plus_non_emph_style.foreground = none →
      ((make_hunk_styles opt is_light_mode true_color).2.2.2.2.2.2).ansi_term_style.foreground
        = ((make_hunk_styles opt is_light_mode true_color).2.2.2.2.1).ansi_term_style.foreground)
    ∧ (opt.plus_non_emph_style.background = none →
      ((make_hunk_styles opt is_light_mode true_color).2.2.2.2.2.2).ansi_term_style.background
        = ((make_hunk_styles opt is_light_mode true_color).2.2.2.2.1).ansi_term_style.background)
    ∧ (∀ c, opt.plus_non_emph_style.foreground = some c →
      ((make_hunk_styles opt is_light_mode true_color).2.2.2.2.2.2).ansi_term_style.foreground
        = some c)
    ∧ (∀ c, opt.plus_non_emph_style.background = some c →
      ((make_hunk_styles opt is_light_mode true_color).2.2.2.2.2.2).ansi_term_style.background
        = some c) := by
  refine ⟨?_, ?_, ?_, ?_, ?_, ?_, ?_, ?_⟩
  · intro h
    simp [make_hunk_styles, Style.from_str, orDefault, h]
  · intro h
    simp [make_hunk_styles, Style.from_str, orDefault, h]
  · intro c h
    simp [make_hunk_styles, Style.from_str, orDefault, h]
  · intro c h
    simp [make_hunk_styles, Style.from_str, orDefault, h]
  · intro h
    simp [make_hunk_styles, Style.from_str, orDefault, h]
  · intro h
    simp [make_hunk_styles, Style.from_str, orDefault, h]
  · intro c h
    simp [make_hunk_styles, Style.from_str, orDefault, h]
  · intro c h
    simp [make_hunk_styles, Style.from_str, orDefault, h]

theorem non_emph_fallback_witness :
    ((make_hunk_styles defaultOpt false true).2.2.1).ansi_term_style.foreground
      = ((make_hunk_styles defaultOpt false true).1).ansi_term_style.foreground :=
  (non_emph_fallback defaultOpt false true).1 rfl

/-- Claim C10: in `make_line_number_styles` applied — as at its call site —
to the resolved hunk-header style's decoration style, each of the four
line-number styles (`number_minus_format` .1, `number_minus` .2.1,
`number_plus_format` .2.2.1, `number_plus` .2.2.2) whose own spec names no
foreground (resp. background) resolves that channel to the hunk-header
style's decoration-style foreground (resp. background), or to `none` when
the hunk-header style has no decoration style — expressed with
`Option.bind`. -/
theorem line_number_fallback (opt : Opt) (hunk_header_style : Style) (true_color : Bool) :
    (opt.number_minus_format_style.foreground = none →
      ((make_line_number_styles opt hunk_header_style.decoration_ansi_term_style
          true_color).1).ansi_term_style.foreground
        = hunk_header_style.decoration_ansi_term_style.bind AnsiTermStyle.foreground)
    ∧ (opt.number_minus_format_style.background = none →
      ((make_line_number_styles opt hunk_header_style.decoration_ansi_term_style
          true_color).1).ansi_term_style.background
        = hunk_header_style.decoration_ansi_term_style.bind AnsiTermStyle.background)
    ∧ (opt.number_minus_style.foreground = none →
      ((make_line_number_styles opt hunk_header_style.decoration_ansi_term_style
          true_color).2.1).ansi_term_style.foreground
        = hunk_header_style.decoration_ansi_term_style.bind AnsiTermStyle.foreground)
    ∧ (opt.number_minus_style.background = none →
      ((make_line_number_styles opt hunk_header_style.decoration_ansi_term_style
          true_color).2.1).ansi_term_style.background
        = hunk_header_style.decoration_ansi_term_style.bind AnsiTermStyle.background)
    ∧ (opt.number_plus_format_style.foreground = none →
      ((make_line_number_styles opt hunk_header_style.decoration_ansi_term_style
          true_color).2.2.1).ansi_term_style.foreground
        = hunk_header_style.decoration_ansi_term_style.bind AnsiTermStyle.foreground)
    ∧ (opt.number_plus_format_style.background = none →
      ((make_line_number_styles opt hunk_header_style.decoration_ansi_term_style
          true_color).2.2.1).ansi_term_style.background
        = hunk_header_style.decoration_ansi_term_style.bind AnsiTermStyle.background)
    ∧ (opt.number_plus_style.foreground = none →
      ((make_line_number_styles opt hunk_header_style.decoration_ansi_term_style
          true_color).2.2.2).ansi_term_style.foreground
        = hunk_header_style.decoration_ansi_term_style.bind AnsiTermStyle.foreground)
    ∧ (opt.number_plus_style.background = none →
      ((make_line_number_styles opt hunk_header_style.decoration_ansi_term_style
          true_color).2.2.2).ansi_term_style.background
        = hunk_header_style.decoration_ansi_term_style.bind AnsiTermStyle.background) := by
  cases hd : hunk_header_style.decoration_style with
  | none =>
      refine ⟨?_, ?_, ?_, ?_, ?_, ?_, ?_, ?_⟩ <;>
        · intro h
          simp [make_line_number_styles, Style.from_str, orDefault,
            Style.decoration_ansi_term_style, hd, h]
  | some d =>
      refine ⟨?_, ?_, ?_, ?_, ?_, ?_, ?_, ?_⟩ <;>
        · intro h
          simp [make_line_number_styles, Style.from_str, orDefault,
            Style.decoration_ansi_term_style, hd, h]

theorem line_number_fallback_witness :
    ((make_line_number_styles defaultOpt decoratedStyle.decoration_ansi_term_style
        true).1).ansi_term_style.foreground = some 3 :=
  (line_number_fallback defaultOpt decoratedStyle true).1 rfl

/-- Claim C2 (amended): for an explicit theme name present in the catalogue
and not the no-syntax-highlighting sentinel, provided the two mode flags
are not both set (in which case `ConflictingModeFlags` preempts, see the
counterexample): a Light classification with the dark flag, or a Dark
classification with the light flag, fails fatally with
`ThemeModeMismatch`; otherwise resolution succeeds and the display mode
equals the catalogue classification. -/
theorem theme_mode_mismatch_resolution (opt : Opt) (env_theme : Option String)
    (cat : ThemeCatalogue) (t : String) (cls : DisplayMode)
    (hnb : ¬ (opt.light = true ∧ opt.dark = true))
    (ht : opt.syntax_theme = some t)
    (hs : is_no_syntax_highlighting_theme_name t = false)
    (hc : catalogueLookup cat t = some cls) :
    (cls = DisplayMode.Light → opt.dark = true →
       resolveModeAndTheme opt env_theme cat
         = Except.error (FatalError.themeModeMismatch t))
    ∧ (cls = DisplayMode.Dark → opt.light = true →
       resolveModeAndTheme opt env_theme cat
         = Except.error (FatalError.themeModeMismatch t))
    ∧ (¬ (cls = DisplayMode.Light ∧ opt.dark = true) →
       ¬ (cls = DisplayMode.Dark ∧ opt.light = true) →
       resolveModeAndTheme opt env_theme cat
         = Except.ok (decide (cls = DisplayMode.Light), t)
       ∧ modeOfIsLight (decide (cls = DisplayMode.Light)) = cls) := by
  have hcont : containsKey cat t = true := by simp [containsKey, hc]
  have hlig : is_light_theme cat t = decide (cls = DisplayMode.Light) := by
    cases cls <;> simp [is_light_theme, hc]
  refine ⟨?_, ?_, ?_⟩
  · intro hcl hd
    subst hcl
    have hl : opt.light = false := by
      cases hlv : opt.light
      · rfl
      · exact absurd ⟨hlv, hd⟩ hnb
    simp [resolveModeAndTheme, _check_validity, ht, hs, hcont, hlig, hl, hd]
  · intro hcl hl
    subst hcl
    have hd : opt.dark = false := by
      cases hdv : opt.dark
      · rfl
      · exact absurd ⟨hl, hdv⟩ hnb
    simp [resolveModeAndTheme, _check_validity, ht, hs, hcont, hlig, hl, hd]
  · intro h1 h2
    cases cls with
    | Light =>
        have hd : opt.dark = false := by
          cases hdv : opt.dark
          · rfl
          · exact absurd ⟨rfl, hdv⟩ h1
        constructor
        · simp [resolveModeAndTheme, _check_validity, get_is_light_mode_and_theme_name,
            ht, hs, hcont, hlig, hd, hc]
        · simp [modeOfIsLight]
    | Dark =>
        have hl : opt.light = false := by
          cases hlv : opt.light
          · rfl
          · exact absurd ⟨rfl, hlv⟩ h2
        constructor
        · simp [resolveModeAndTheme, _check_validity, get_is_light_mode_and_theme_name,
            ht, hs, hcont, hlig, hl, hc]
        · simp [modeOfIsLight]

/-- Claim C2, counterexample to the claim as stated: with a Light-classified
catalogue theme and the dark flag set, but the light flag also set, the code
fails with `ConflictingModeFlags`, not `ThemeModeMismatch` as the claim
asserts for every such input. -/
theorem theme_mode_mismatch_counterexample :
    resolveModeAndTheme bothFlagsLightThemeOpt none [("GitHub", DisplayMode.Light)]
      = Except.error FatalError.conflictingModeFlags
    ∧ FatalError.conflictingModeFlags ≠ FatalError.themeModeMismatch "GitHub" := by
  constructor
  · rfl
  · decide

theorem theme_mode_mismatch_resolution_witness :
    resolveModeAndTheme { defaultOpt with syntax_theme := some "GitHub" } none
        [("GitHub", DisplayMode.Light)]
      = Except.ok (true, "GitHub")
    ∧ modeOfIsLight true = DisplayMode.Light :=
  (theme_mode_mismatch_resolution { defaultOpt with syntax_theme := some "GitHub" } none
    [("GitHub", DisplayMode.Light)] "GitHub" DisplayMode.Light
    (by decide) rfl (by decide) rfl).2.2 (by decide) (by decide)

/-- Claim C3 (amended): for an explicit theme name absent from the
catalogue and not the no-syntax-highlighting sentinel, provided the two
mode flags are not both set (in which case `ConflictingModeFlags`
preempts, see the counterexample), resolution never fails: the raw name
is accepted unchanged with no further validation, and the display mode is
Light exactly when the light flag is set, defaulting to Dark. -/
theorem unknown_theme_accepted (opt : Opt) (env_theme : Option String)
    (cat : ThemeCatalogue) (t : String)
    (hnb : ¬ (opt.light = true ∧ opt.dark = true))
    (ht : opt.syntax_theme = some t)
    (hs : is_no_syntax_highlighting_theme_name t = false)
    (hc : catalogueLookup cat t = none) :
    resolveModeAndTheme opt env_theme cat = Except.ok (opt.light, t)
    ∧ (opt.light = false → modeOfIsLight opt.light = DisplayMode.Dark)
    ∧ (opt.light = true → modeOfIsLight opt.light = DisplayMode.Light) := by
  have hcont : containsKey cat t = false := by simp [containsKey, hc]
  have hboth : (opt.light && opt.dark) = false := by
    cases hlv : opt.light
    · rfl
    · cases hdv : opt.dark
      · rfl
      · exact absurd ⟨hlv, hdv⟩ hnb
  refine ⟨?_, ?_, ?_⟩
  · simp [resolveModeAndTheme, _check_validity, get_is_light_mode_and_theme_name,
      ht, hs, hcont, hboth, hc]
  · intro h
    simp [modeOfIsLight, h]
  · intro h
    simp [modeOfIsLight, h]

/-- Claim C3, counterexample to the claim as stated: an explicit theme name
absent from the catalogue does not make resolution infallible — with both
mode flags set, resolution fails with `ConflictingModeFlags`. -/
theorem unknown_theme_accepted_counterexample :
    resolveModeAndTheme bothFlagsUnknownThemeOpt none []
      = Except.error FatalError.conflictingModeFlags
    ∧ (resolveModeAndTheme bothFlagsUnknownThemeOpt none []).isOk = false := by
  constructor
  · rfl
  · rfl

theorem unknown_theme_accepted_witness :
    resolveModeAndTheme { defaultOpt with syntax_theme := some "mystery", dark := true }
        none []
      = Except.ok (false, "mystery")
    ∧ modeOfIsLight false = DisplayMode.Dark := by
  have h := unknown_theme_accepted
    { defaultOpt with syntax_theme := some "mystery", dark := true } none [] "mystery"
    (by decide) rfl (by decide) rfl
  exact ⟨h.1, h.2.1 rfl⟩

/-- Claim C6 (amended): for every successfully constructed `Config`, a
`Width.Fixed n` decorations width satisfies n ≤ terminal columns − 1; but
n need not be positive — the numeric width path accepts every decimal
`usize` string, including "0" (see the counterexample). -/
theorem fixed_width_bounded {R : Type} (compile : String → Option R)
    (env : String → Option String) (cat : ThemeCatalogue) (cols : Nat) (opt : Opt)
    (cfg : Config R) (n : Nat) (h1 : 1 ≤ cols) (h2 : cols < 65536)
    (hok : configFrom compile env cat cols opt = Except.ok cfg)
    (hw : cfg.decorations_width = Width.Fixed n) :
    n ≤ cols - 1 := by
  obtain ⟨pm, tc, dw, bg, r, -, -, hwid, -, hdw, -⟩ := configFrom_ok_inv hok
  rw [hw] at hdw
  rw [← hdw] at hwid
  have hle := resolveWidth_fixed_le opt.width (availableTerminalWidth cols) n bg hwid
  rwa [availableTerminalWidth_eq cols h1 h2] at hle

/-- Claim C6, counterexample to the claim as stated: `--width 0` on an
80-column terminal successfully produces a `Config` whose decorations
width is `Width.Fixed 0`, and 0 is not a positive integer. -/
theorem positive_width_counterexample :
    (configFrom (fun s => some s) (fun _ => none) [] 80 zeroWidthOpt).map
        (fun cfg => cfg.decorations_width) = Except.ok (Width.Fixed 0)
    ∧ ¬ 0 < 0 := by
  constructor
  · rfl
  · decide

theorem fixed_width_bounded_witness : (0 : Nat) ≤ 80 - 1 :=
  fixed_width_bounded (fun s => some s) (fun _ => none) [] 80 zeroWidthOpt _ 0
    (by decide) (by decide) rfl rfl

/-- Claim C8: a tokenization pattern the regex compiler rejects is fatal
with `InvalidPattern` reporting the offending string, and no `Config` is
ever produced from it; a pattern the compiler accepts has its compiled
regex stored in the `Config`. -/
theorem tokenization_pattern_validation {R : Type} (compile : String → Option R)
    (env : String → Option String) (cat : ThemeCatalogue) (cols : Nat) (opt : Opt) :
    (compile opt.tokenization_regex = none →
       resolveTokenizationRegex compile opt.tokenization_regex
         = Except.error (FatalError.invalidPattern opt.tokenization_regex)
       ∧ ∀ cfg : Config R, configFrom compile env cat cols opt ≠ Except.ok cfg)
    ∧ (∀ (r : R) (cfg : Config R), compile opt.tokenization_regex = some r →
       configFrom compile env cat cols opt = Except.ok cfg →
       cfg.tokenization_regex = r) := by
  constructor
  · intro h
    constructor
    · simp [resolveTokenizationRegex, h]
    · intro cfg hc
      obtain ⟨pm, tc, dw, bg, r, -, -, -, hr, -, -⟩ := configFrom_ok_inv hc
      rw [h] at hr
      exact Option.noConfusion hr
  · intro r cfg hr hc
    obtain ⟨pm2, tc2, dw2, bg2, r2, -, -, -, hr2, -, hreg⟩ := configFrom_ok_inv hc
    rw [hr] at hr2
    rw [hreg]
    exact (Option.some.inj hr2).symm

theorem tokenization_pattern_validation_witness :
    resolveTokenizationRegex (fun s => if s = "(" then none else some s) "("
      = Except.error (FatalError.invalidPattern "(") :=
  ((tokenization_pattern_validation (fun s => if s = "(" then none else some s)
    (fun _ => none) [] 80 { defaultOpt with tokenization_regex := "(" }).1 (by decide)).1
